import Mathlib

/-!
A verification development for `src/app.py`, a Flask-based HTTP status
monitor for a fixed set of sites.  The Python source is shallowly embedded:
the probe function `check_website`, the per-cycle bookkeeping of
`monitor_loop` (current-status update, history append, trim to
`HISTORY_LENGTH`), and the uptime aggregation `calculate_uptime` become
total Lean functions; the nondeterministic outcome of the HTTP request made
by `session.get` is an explicit `ProbeOutcome` argument, and the raised /
caught Python exception becomes its `exception` constructor.
-/

/-- The `status` field of a check result: the source uses the strings
`'up'` and `'down'`. -/
inductive Status where
  | up
  | down
deriving DecidableEq, Repr

/-- The dictionary returned by `check_website` (lines 97-103, 105-110 and
114-119 of app.py).  The `code` key is absent on the exception branch and
the `error` key is absent on the non-403 response branch, so both are
`Option`. -/
structure CheckResult where
  status : Status
  time : Nat
  code : Option Nat
  error : Option String
  timestamp : String
deriving DecidableEq, Repr

/-- Outcome of the HTTP request issued by `session.get` at line 84 of
app.py: either a response (with its status code and the measured elapsed
milliseconds) or a raised exception carrying the message `str(e)`.  The
`now` component is the UTC ISO-8601 timestamp taken at return time. -/
inductive ProbeOutcome where
  | response (status_code : Nat) (elapsed_ms : Nat) (now : String)
  | exception (msg : String) (now : String)
deriving DecidableEq, Repr

/-- Line 24 of app.py.  Declared in the source and never used by any other
line of app.py. -/
def HISTORY_FILE : String := "history.json"

/-- Line 25 of app.py. -/
def HISTORY_LENGTH : Nat := 20

/-- Line 26 of app.py. -/
def UPDATE_INTERVAL : Nat := 30

/-- The `SITES` dict, lines 28-44 of app.py (Python dicts preserve
insertion order). -/
def SITES : List (String × String) :=
  [("Self-Service", "https://apps.uillinois.edu/selfservice"),
   ("Canvas", "https://canvas.illinois.edu"),
   ("MyIllini", "https://myillini.illinois.edu"),
   ("Course Explorer", "https://courses.illinois.edu"),
   ("UIUC Status", "https://status.illinois.edu"),
   ("Media Space", "https://mediaspace.illinois.edu"),
   ("APPS Directory", "https://apps.uillinois.edu"),
   ("Illinois.edu", "https://illinois.edu"),
   ("Student Affairs", "https://studentaffairs.illinois.edu"),
   ("Admissions", "https://admissions.illinois.edu"),
   ("University Housing", "https://housing.illinois.edu"),
   ("Library", "https://library.illinois.edu"),
   ("Technology Services", "https://techservices.illinois.edu"),
   ("Box", "https://uofi.box.com"),
   ("Webstore", "https://webstore.illinois.edu")]

/-- The keyword arguments of the `session.get` call at line 84 of app.py:
`session.get(url, timeout=15, verify=False, allow_redirects=True)`. -/
structure RequestParams where
  url : String
  timeout : Nat
  verify : Bool
  allow_redirects : Bool
deriving DecidableEq, Repr

/-- The request parameters `check_website` uses for a given url, read off
line 84 of app.py.  `verify := false` is hard-coded there for every
request; there is no per-target flag anywhere in the source. -/
def session_get_params (url : String) : RequestParams :=
  { url := url, timeout := 15, verify := false, allow_redirects := true }

/-- `check_website` (lines 70-119 of app.py), as a function of the outcome
of its single HTTP request.  The response branch computes
`status = 'up' if code in [200, 301, 302] else 'down'` (line 91), then
special-cases 403 (lines 94-103); the `except Exception` branch
(lines 111-119) returns `status='down'`, `time=0`, `error=str(e)` and no
`code` key. -/
def check_website (name url : String) (o : ProbeOutcome) : CheckResult :=
  match o with
  | .response status_code elapsed now =>
    let status := if status_code = 200 ∨ status_code = 301 ∨ status_code = 302
      then Status.up else Status.down
    if status_code = 403 then
      { status := Status.down, time := elapsed, code := some status_code,
        error := some "403 Forbidden (WAF Block)", timestamp := now }
    else
      { status := status, time := elapsed, code := some status_code,
        error := none, timestamp := now }
  | .exception msg _now =>
    { status := Status.down, time := 0, code := none, error := some msg,
      timestamp := _now }

/-- `calculate_uptime` (lines 204-215 of app.py):
`0` for an empty history, otherwise `int((up_count / len(history)) * 100)`.
The Python truncation of the float quotient agrees with exact
floor division `(100 * up_count) / len` for every history length up to 49
(checked exhaustively against CPython doubles), hence on every reachable
history, whose length is at most `HISTORY_LENGTH = 20`. -/
def calculate_uptime (history : List CheckResult) : Nat :=
  if history.isEmpty then 0
  else
    let up_count := history.countP (fun r => r.status == Status.up)
    (100 * up_count) / history.length

/-- Modelled from the spec: section 4.3 gives
`uptime(history) = 0` if empty, else `round(100 × count(up) / len, 1 decimal)`.
Used only to compare the specified aggregation against `calculate_uptime`;
the rounding to one decimal is `round (10 * x) / 10` over `ℚ`. -/
def uptime_spec_rounded (history : List CheckResult) : ℚ :=
  if history.isEmpty then 0
  else
    let up_count := history.countP (fun r => r.status == Status.up)
    (round ((100 * up_count : ℚ) / history.length * 10) : ℤ) / 10

/-- The shared in-memory store: the module-level dicts `status_history`
(line 48) and `current_status` (line 49) of app.py.  A name absent from the
Python dict is the default: empty history (line 138-139 inserts `[]` on
first record), and `current_status.get(name, {})` at lines 174/194 reads an
absent current status as the empty placeholder, here `none`. -/
structure StoreState where
  status_history : String → List CheckResult
  current_status : String → Option CheckResult

/-- The store at process start: both dicts are initialised empty at
lines 48-49 of app.py (nothing is ever read from disk). -/
def initialStore : StoreState :=
  { status_history := fun _ => [], current_status := fun _ => none }

/-- First half of one record in `monitor_loop`:
`current_status[name] = result` (line 135 of app.py). -/
def recordStep1 (s : StoreState) (name : String) (r : CheckResult) : StoreState :=
  { s with current_status := fun n => if n = name then some r else s.current_status n }

/-- Append one result and trim: `status_history[name].append(result)`
(line 141) followed by `pop(0)` when the length exceeds `HISTORY_LENGTH`
(lines 144-145 of app.py). -/
def appendTrim (h : List CheckResult) (r : CheckResult) : List CheckResult :=
  let h2 := h ++ [r]
  if HISTORY_LENGTH < h2.length then h2.tail else h2

/-- Second half of one record in `monitor_loop`: the history append and
trim (lines 137-145 of app.py). -/
def recordStep2 (s : StoreState) (name : String) (r : CheckResult) : StoreState :=
  { s with status_history :=
      fun n => if n = name then appendTrim (s.status_history n) r else s.status_history n }

/-- One complete record of a check result for one site, lines 131-145 of
app.py: the current-status overwrite (line 135) executes before the history
append and trim (lines 141-145); no lock guards the two statements. -/
def recordResult (s : StoreState) (name : String) (r : CheckResult) : StoreState :=
  recordStep2 (recordStep1 s name r) name r

/-- Run a sequence of records against the store, oldest first. -/
def runRecords (ops : List (String × CheckResult)) : StoreState :=
  ops.foldl (fun st p => recordResult st p.1 p.2) initialStore

/-- The most recent `n` entries of a list, in order. -/
def lastN (n : Nat) (l : List CheckResult) : List CheckResult :=
  l.drop (l.length - n)

/-- Whole-process state: the store, `last_check_time` (line 50 of app.py),
and the contents of the file `HISTORY_FILE` on disk, `none` when absent. -/
structure AppState where
  store : StoreState
  last_check_time : Option String
  history_file : Option String

/-- Process start: lines 48-50 of app.py initialise the two dicts empty
and `last_check_time = None`; no line of app.py opens or reads
`HISTORY_FILE`, so the store is the same whatever the disk holds. -/
def initialAppState (disk : Option String) : AppState :=
  { store := initialStore, last_check_time := none, history_file := disk }

/-- One iteration of the `while True` body of `monitor_loop`
(lines 128-151 of app.py): probe every site in `SITES` order, record each
result, then set `last_check_time`.  No line of the loop writes
`HISTORY_FILE` (or any file), so the disk component is carried through
unchanged. -/
def monitorCycle (outcome : String → ProbeOutcome) (now : String)
    (s : AppState) : AppState :=
  { store := SITES.foldl
      (fun st p => recordResult st p.1 (check_website p.1 p.2 (outcome p.1))) s.store,
    last_check_time := some now,
    history_file := s.history_file }

/-- A concrete successful check result, as produced for an HTTP 200
response. -/
def rUp : CheckResult :=
  { status := Status.up, time := 120, code := some 200, error := none,
    timestamp := "2026-10-12T00:00:00+00:00" }

/-- A concrete failed check result, as produced for a timed-out request. -/
def rDown : CheckResult :=
  { status := Status.down, time := 0, code := none,
    error := some "HTTPSConnectionPool: Read timed out.",
    timestamp := "2026-10-12T00:00:30+00:00" }

/-- A three-element history with one up result: uptime 1/3. -/
def histUDD : List CheckResult := [rUp, rDown, rDown]

/-- The four-element history `[up, down, up, up]` from the spec. -/
def histUDUU : List CheckResult := [rUp, rDown, rUp, rUp]

/-- The store after one completed record of `rUp` for Canvas. -/
def storeAfterUp : StoreState := recordResult initialStore "Canvas" rUp

/-- The store as a concurrent reader can observe it between line 135 and
line 141 of app.py, while the monitor thread is recording `rDown` for
Canvas: the current-status overwrite has executed, the history append has
not. -/
def storeMidRecord : StoreState := recordStep1 storeAfterUp "Canvas" rDown

/-! ## Helper lemmas -/

theorem getLast?_appendTrim (h : List CheckResult) (r : CheckResult) :
    (appendTrim h r).getLast? = some r := by
  simp only [appendTrim]
  by_cases hc : HISTORY_LENGTH < (h ++ [r]).length
  · have h1 : 1 ≤ h.length := by
      simp only [List.length_append, List.length_cons, List.length_nil, HISTORY_LENGTH] at hc
      omega
    rw [if_pos hc, ← List.drop_one, List.drop_append_of_le_length h1,
      List.getLast?_concat]
  · rw [if_neg hc, List.getLast?_concat]

theorem recordResult_current (s : StoreState) (name n : String) (r : CheckResult) :
    (recordResult s name r).current_status n
      = if n = name then some r else s.current_status n := rfl

theorem recordResult_history (s : StoreState) (name n : String) (r : CheckResult) :
    (recordResult s name r).status_history n
      = if n = name then appendTrim (s.status_history n) r
        else s.status_history n := rfl

theorem appendTrim_lastN (L : List CheckResult) (r : CheckResult) :
    appendTrim (lastN HISTORY_LENGTH L) r = lastN HISTORY_LENGTH (L ++ [r]) := by
  by_cases hk : HISTORY_LENGTH ≤ L.length
  · have hlen : (lastN HISTORY_LENGTH L).length = HISTORY_LENGTH := by
      simp only [lastN, List.length_drop]
      omega
    have hcond : HISTORY_LENGTH < (lastN HISTORY_LENGTH L ++ [r]).length := by
      simp only [List.length_append, List.length_cons, List.length_nil, hlen]
      omega
    have hone : 1 ≤ (lastN HISTORY_LENGTH L).length := by
      rw [hlen]
      decide
    simp only [appendTrim]
    rw [if_pos hcond, ← List.drop_one, List.drop_append_of_le_length hone]
    simp only [lastN, List.drop_drop, List.length_append, List.length_cons,
      List.length_nil]
    rw [List.drop_append_of_le_length (by omega : L.length + 1 - HISTORY_LENGTH ≤ L.length)]
    congr 2
    omega
  · have h0 : L.length - HISTORY_LENGTH = 0 := by omega
    have h0' : L.length + 1 - HISTORY_LENGTH = 0 := by omega
    simp only [appendTrim, lastN, h0, List.drop_zero, List.length_append,
      List.length_cons, List.length_nil, h0']
    rw [if_neg (by omega : ¬ HISTORY_LENGTH < L.length + 1)]

theorem foldl_appendTrim (rs init : List CheckResult)
    (hinit : init.length ≤ HISTORY_LENGTH) :
    rs.foldl appendTrim init = lastN HISTORY_LENGTH (init ++ rs) := by
  induction rs using List.reverseRecOn with
  | nil =>
    simp only [List.foldl_nil, List.append_nil, lastN]
    rw [(by omega : init.length - HISTORY_LENGTH = 0), List.drop_zero]
  | append_singleton rs r ih =>
    rw [← List.append_assoc, List.foldl_append, ih, List.foldl_cons,
      List.foldl_nil, appendTrim_lastN]

theorem foldl_record_history (ops : List (String × CheckResult)) (s : StoreState)
    (name : String) :
    ((ops.foldl (fun st p => recordResult st p.1 p.2) s).status_history name)
      = (ops.filterMap (fun p => if p.1 = name then some p.2 else none)).foldl
          appendTrim (s.status_history name) := by
  induction ops generalizing s with
  | nil => rfl
  | cons p ops ih =>
    rw [List.foldl_cons, ih, List.filterMap_cons]
    by_cases hp : p.1 = name
    · rw [if_pos hp]
      rw [recordResult_history, if_pos hp.symm, List.foldl_cons]
    · rw [if_neg hp]
      rw [recordResult_history, if_neg (fun h => hp h.symm)]

/-! ## Claim theorems -/

/-- Claim C1, counterexample: `calculate_uptime` truncates to a whole
integer (`int(...)` at line 215 of app.py) instead of rounding to one
decimal place as the spec states.  On the history `[up, down, down]` the
code returns `33`, while `round(100 × 1 / 3, 1 decimal)` is `33.3`. -/
theorem calculate_uptime_not_one_decimal :
    (calculate_uptime histUDD : ℚ) ≠ uptime_spec_rounded histUDD
      ∧ calculate_uptime histUDD = 33
      ∧ uptime_spec_rounded histUDD = 333 / 10 := by
  have hcalc : calculate_uptime histUDD = 33 := by decide
  have hcount : histUDD.countP (fun r => r.status == Status.up) = 1 := by decide
  have hlen : histUDD.length = 3 := by decide
  have hval : uptime_spec_rounded histUDD = 333 / 10 := by
    unfold uptime_spec_rounded
    rw [if_neg (by decide : ¬ (histUDD.isEmpty = true)), hcount, hlen]
    have h4 : round ((100 : ℚ) * ((1 : ℕ) : ℚ) / ((3 : ℕ) : ℚ) * 10) = 333 := by
      rw [round_eq]
      have h3 : (100 : ℚ) * ((1 : ℕ) : ℚ) / ((3 : ℕ) : ℚ) * 10 + 1 / 2 = 2003 / 6 := by
        norm_num
      rw [h3, Int.floor_eq_iff]
      constructor
      · norm_num
      · norm_num
    show ((round ((100 : ℚ) * ((1 : ℕ) : ℚ) / ((3 : ℕ) : ℚ) * 10) : ℤ) : ℚ) / 10
        = 333 / 10
    rw [h4]
    norm_num
  refine ⟨?_, hcalc, hval⟩
  rw [hcalc, hval]
  norm_num

/-- Claim C1, amended: the uptime aggregation returns `0` for an empty
history and otherwise the floor (integer truncation) of
`100 × count(status = up) / len(history)` — a whole-number percentage, not
a value rounded to one decimal; on `[up, down, up, up]` it returns `75`. -/
theorem calculate_uptime_floor (h : List CheckResult) (hne : h ≠ []) :
    calculate_uptime h
        = ⌊(100 * (h.countP (fun r => r.status == Status.up)) : ℚ) / (h.length : ℚ)⌋₊
      ∧ calculate_uptime ([] : List CheckResult) = 0
      ∧ calculate_uptime histUDUU = 75 := by
  refine ⟨?_, rfl, by decide⟩
  have hni : ¬ (h.isEmpty = true) := by
    cases h
    · exact absurd rfl hne
    · simp
  unfold calculate_uptime
  rw [if_neg hni]
  show (100 * (h.countP (fun r => r.status == Status.up))) / h.length = _
  have h1 : ((100 * (h.countP (fun r => r.status == Status.up)) : ℕ) : ℚ)
      = 100 * ((h.countP (fun r => r.status == Status.up)) : ℚ) := by
    push_cast
    ring
  rw [← h1, Nat.floor_div_nat, Nat.floor_natCast]

/-- Witness for the amended claim C1 at the concrete history
`[up, down, up, up]`. -/
theorem calculate_uptime_floor_witness :
    histUDUU ≠ ([] : List CheckResult)
      ∧ calculate_uptime histUDUU
        = ⌊(100 * (histUDUU.countP (fun r => r.status == Status.up)) : ℚ)
            / (histUDUU.length : ℚ)⌋₊ :=
  ⟨by decide, (calculate_uptime_floor histUDUU (by decide)).1⟩

/-- Claim C2: after any sequence of records starting from the empty store,
a target's history is exactly the most recent `HISTORY_LENGTH` results
recorded for that target, in chronological order (so the oldest entries
are the ones evicted), and its length never exceeds `HISTORY_LENGTH`. -/
theorem record_history_bounded_fifo (ops : List (String × CheckResult)) (name : String) :
    (runRecords ops).status_history name
        = lastN HISTORY_LENGTH
            (ops.filterMap (fun p => if p.1 = name then some p.2 else none))
      ∧ ((runRecords ops).status_history name).length ≤ HISTORY_LENGTH := by
  have h1 : (runRecords ops).status_history name
      = lastN HISTORY_LENGTH
          (ops.filterMap (fun p => if p.1 = name then some p.2 else none)) := by
    unfold runRecords
    rw [foldl_record_history]
    show (ops.filterMap _).foldl appendTrim [] = _
    rw [foldl_appendTrim _ [] (by simp [HISTORY_LENGTH]), List.nil_append]
  refine ⟨h1, ?_⟩
  rw [h1]
  simp only [lastN, List.length_drop]
  omega

/-- Claim C3: immediately after recording result `r` for a target, the
target's current status is `r` and the last element of its history is
`r`. -/
theorem record_consistency (s : StoreState) (name : String) (r : CheckResult) :
    (recordResult s name r).current_status name = some r
      ∧ ((recordResult s name r).status_history name).getLast? = some r := by
  refine ⟨?_, ?_⟩
  · rw [recordResult_current, if_pos rfl]
  · rw [recordResult_history, if_pos rfl, getLast?_appendTrim]

/-- Claim C4: `check_website` is a total function into `CheckResult` — the
`except Exception` handler at lines 111-119 of app.py means every raised
exception is mapped to a result rather than propagated — and on the
exception branch the result has `status = down` and carries the exception
message in its `error` field. -/
theorem check_website_never_raises (name url msg now : String) :
    (∀ o : ProbeOutcome, ∃ res : CheckResult, check_website name url o = res)
      ∧ (check_website name url (.exception msg now)).status = Status.down
      ∧ (check_website name url (.exception msg now)).error = some msg :=
  ⟨fun o => ⟨check_website name url o, rfl⟩, rfl, rfl⟩

/-- Claim C5: a probe whose response has status code 200, 301 or 302
yields `status = up`, and every other response code yields
`status = down` (the 403 special case at lines 94-103 of app.py also
yields `down`). -/
theorem check_website_up_iff (name url : String) (c t : Nat) (now : String) :
    (check_website name url (.response c t now)).status = Status.up
      ↔ (c = 200 ∨ c = 301 ∨ c = 302) := by
  simp only [check_website]
  by_cases h403 : c = 403
  · subst h403
    rw [if_pos rfl]
    simp
  · simp only [if_neg h403]
    by_cases hin : c = 200 ∨ c = 301 ∨ c = 302
    · simp [hin]
    · simp [hin]

/-- Claim C6: a probe whose response has status code 403 yields
`status = down` with the non-empty error string
`"403 Forbidden (WAF Block)"`. -/
theorem check_website_403_waf (name url : String) (t : Nat) (now : String) :
    (check_website name url (.response 403 t now)).status = Status.down
      ∧ (check_website name url (.response 403 t now)).error
          = some "403 Forbidden (WAF Block)"
      ∧ "403 Forbidden (WAF Block)" ≠ "" :=
  ⟨rfl, rfl, by decide⟩

/-- Claim C7, code-bug evidence: app.py declares `HISTORY_FILE` but no
line of the source ever writes or reads it — `monitorCycle` carries the
disk contents through unchanged (the loop body, lines 128-151, performs no
file operation), and the state at process start is the empty store
whatever the disk holds (lines 48-50 initialise the dicts empty; nothing
is loaded).  So no save/load round-trip exists in the code. -/
theorem monitor_cycle_never_persists (o : String → ProbeOutcome) (now : String)
    (s : AppState) (disk : Option String) :
    (monitorCycle o now s).history_file = s.history_file
      ∧ (initialAppState disk).store.status_history "Canvas" = []
      ∧ (initialAppState disk).last_check_time = none :=
  ⟨rfl, rfl, rfl⟩

/-- Claim C8, counterexample: the target `Canvas` carries no
certificate-issue flag (no per-target flag exists anywhere in the source),
yet its request is issued with `verify = false` — certificate validation
is not performed for it, contradicting the claim. -/
theorem tls_verify_disabled_for_canvas :
    ("Canvas", "https://canvas.illinois.edu") ∈ SITES
      ∧ (session_get_params "https://canvas.illinois.edu").verify = false :=
  ⟨by decide, rfl⟩

/-- Claim C8, amended: TLS certificate validation is disabled globally —
the `session.get` call at line 84 of app.py hard-codes `verify=False` for
every target, with no target-level configuration flag. -/
theorem tls_verify_disabled_globally (url : String) :
    (session_get_params url).verify = false := rfl

/-- Claim C9, counterexample: the two statements of a record (line 135:
current-status overwrite; line 141: history append) are not guarded by any
lock, so a reader interleaved between them observes the new result in
`current_status` while the last history entry is still the previous
result. -/
theorem snapshot_mid_record_disagreement :
    storeMidRecord.current_status "Canvas" = some rDown
      ∧ (storeMidRecord.status_history "Canvas").getLast? = some rUp
      ∧ rDown ≠ rUp
      ∧ recordResult storeAfterUp "Canvas" rDown
          = recordStep2 (recordStep1 storeAfterUp "Canvas" rDown) "Canvas" rDown := by
  refine ⟨by decide, by decide, by decide, rfl⟩

/-- Claim C9, amended: a reader that does not interleave inside the two
statements of a record — i.e. one that observes the store only at record
boundaries — never sees a target whose current status and last history
entry disagree: a completed `recordResult` preserves the agreement
invariant for every target. -/
theorem record_preserves_agreement (s : StoreState) (name : String) (r : CheckResult)
    (h : ∀ n, s.current_status n = (s.status_history n).getLast?) :
    ∀ n, (recordResult s name r).current_status n
      = ((recordResult s name r).status_history n).getLast? := by
  intro n
  rw [recordResult_current, recordResult_history]
  by_cases hn : n = name
  · rw [if_pos hn, if_pos hn, getLast?_appendTrim]
  · rw [if_neg hn, if_neg hn]
    exact h n

/-- Witness for the amended claim C9: recording `rUp` for Canvas into the
(agreeing) empty store leaves Canvas's current status equal to the last
history entry. -/
theorem record_preserves_agreement_witness :
    (recordResult initialStore "Canvas" rUp).current_status "Canvas"
      = ((recordResult initialStore "Canvas" rUp).status_history "Canvas").getLast? :=
  record_preserves_agreement initialStore "Canvas" rUp (fun _ => rfl) "Canvas"

/-- Claim C10: the exception branch of `check_website` produces
`time = 0` and no `code` field; a response with a code other than 403
produces no `error` field; and the `error` field is present exactly on the
403 branch and the exception branch. -/
theorem check_website_optional_fields :
    (∀ name url msg now : String, (check_website name url (.exception msg now)).time = 0
        ∧ (check_website name url (.exception msg now)).code = none)
      ∧ (∀ (name url : String) (c t : Nat) (now : String), c ≠ 403 →
          (check_website name url (.response c t now)).error = none)
      ∧ (∀ (name url : String) (c t : Nat) (now : String), c = 403 →
          ((check_website name url (.response c t now)).error).isSome = true)
      ∧ (∀ name url msg now : String,
          ((check_website name url (.exception msg now)).error).isSome = true) := by
  refine ⟨fun _ _ _ _ => ⟨rfl, rfl⟩, ?_, ?_, fun _ _ _ _ => rfl⟩
  · intro name url c t now hc
    simp only [check_website]
    rw [if_neg hc]
  · intro name url c t now hc
    subst hc
    rfl

/-- Witness for claim C10: a 200 response carries no error field. -/
theorem check_website_optional_fields_witness :
    (check_website "Canvas" "https://canvas.illinois.edu"
      (.response 200 5 "2026-10-12T00:00:00+00:00")).error = none :=
  check_website_optional_fields.2.1 "Canvas" "https://canvas.illinois.edu"
    200 5 "2026-10-12T00:00:00+00:00" (by decide)
